import Mathlib

/-
Shallow embedding of the concurrency/timing core of the Scribble Discord bot
(src/bot.py, src/actions.py, src/sound_manager.py), together with theorems
settling the frozen specification claims.  Timestamps are natural numbers of
seconds; Python dictionaries become functions into `Option`; the random draws
and external library results (shlex tokenisation, fuzzy matching, the Discord
API) are explicit inputs of the embedded functions.
-/

namespace Scribble

/-- Python `timedelta.seconds` of a non-negative timedelta of `delta` total
seconds: the seconds component after whole days are split off, i.e.
`delta % 86400`.  The source uses `(now - t).seconds` in both rate limiters. -/
def tdSeconds (delta : Nat) : Nat := delta % 86400

/-- Embeds `ScribbleBot.check_rate_limit` (src/bot.py lines 228-238), sliced to
one user key: `last` is `self.last_response.get(user_id)`, `now` the current
time in seconds, `cooldown` the configured `command_cooldown_seconds`.  Returns
the admission verdict and the updated record for that key.  The source compares
`(now - self.last_response[user_id]).seconds < cooldown`, i.e. the
days-truncated `tdSeconds` of the elapsed time. -/
def check_rate_limit (cooldown now : Nat) (last : Option Nat) : Bool × Option Nat :=
  match last with
  | some t =>
      if tdSeconds (now - t) < cooldown then (false, some t)
      else (true, some now)
  | none => (true, some now)

/-- Embeds `ActionHandler.check_action_rate_limit` (src/actions.py lines
112-127): purge the history with the filter
`(now - action_time).seconds < 3600`, then reject if the purged length has
reached `max_actions`, otherwise append `now`.  Returns the verdict and the
history left in `self.action_history`. -/
def check_action_rate_limit (maxActions now : Nat) (hist : List Nat) :
    Bool × List Nat :=
  let hist2 := hist.filter (fun t => tdSeconds (now - t) < 3600)
  if maxActions ≤ hist2.length then (false, hist2)
  else (true, hist2 ++ [now])

/-- One entry of `SoundManager.active_voice_clients` (src/sound_manager.py
line 34): the flags of the stored task and voice client that
`leave_voice_channel` inspects.  `taskDone` is `task.done()`, `connected` is
`client.is_connected()`. -/
structure VCSession where
  taskDone : Bool
  connected : Bool
  deriving DecidableEq

/-- Embeds `SoundManager.leave_voice_channel` (src/sound_manager.py lines
108-140).  The registry `reg` is `self.active_voice_clients` as a map from
guild id; the result is the registry after the call together with the number
of `client.disconnect()` calls issued.  If the guild is absent the call
returns immediately; otherwise the task is cancelled and awaited (external
effects with no bearing on the registry), the client is disconnected when
still connected, and the entry is deleted.  Exceptions on the disconnect are
caught in the source, so the function never raises. -/
def leave_voice_channel (g : Nat) (reg : Nat → Option VCSession) :
    (Nat → Option VCSession) × Nat :=
  match reg g with
  | none => (reg, 0)
  | some info =>
      ((fun x => if x = g then none else reg x),
       if info.connected then 1 else 0)

/-- Embeds `SoundManager.join_voice_channel` (src/sound_manager.py lines
65-106), keeping the observables the claims need: whether the call reports
success and how many times `voice_channel.connect()` is invoked.  `enabled`
is `self.enabled`, `availableSounds` is `self.available_sounds`,
`alreadyConnected` is the `guild.id in self.active_voice_clients` test, and
`connectSucceeds` tells whether the external `connect()` returns a client
(its failure or an exception both yield `False` in the source). -/
structure JoinResult where
  success : Bool
  connectCalls : Nat
  deriving DecidableEq

/-- Result of `SoundManager.join_voice_channel`; see `JoinResult`. -/
def join_voice_channel (enabled : Bool) (availableSounds : List String)
    (alreadyConnected : Bool) (connectSucceeds : Bool) : JoinResult :=
  if !enabled then ⟨false, 0⟩
  else if availableSounds.isEmpty then ⟨false, 0⟩
  else if alreadyConnected then ⟨true, 0⟩
  else if connectSucceeds then ⟨true, 1⟩
  else ⟨false, 1⟩

/-- The effects scheduled by the tail of `ActionHandler.handle_voice_join`
(src/actions.py lines 424-464), after a successful `voice_channel.connect()`:
which sound (if any) playback starts with, the delay of the always-scheduled
`max_time_disconnect` timer, and the delay of the extra `timeout_disconnect`
timer that is created only when no sound files were found. -/
structure JoinEffects where
  playedSound : Option String
  maxTimerDelay : Nat
  extraTimerDelay : Option Nat
  deriving DecidableEq

/-- Embeds src/actions.py lines 424-464: `max_time_disconnect` is scheduled for
`minutes * 60` seconds unconditionally; then the sound files are listed; when
some exist, one chosen by the random index `choiceIdx` starts playing; when
none exist, only a further `timeout_disconnect` task sleeping `minutes * 60`
seconds is scheduled — no immediate disconnect happens on that path. -/
def handle_voice_join_after_connect (minutes : Nat) (soundFiles : List String)
    (choiceIdx : Nat) : JoinEffects :=
  let maxDelay := minutes * 60
  if soundFiles.isEmpty then
    { playedSound := none, maxTimerDelay := maxDelay,
      extraTimerDelay := some maxDelay }
  else
    { playedSound := soundFiles.get? (choiceIdx % soundFiles.length),
      maxTimerDelay := maxDelay, extraTimerDelay := none }

/-- Effect selected by one run of the `after_playing` completion callback in
`ActionHandler.handle_voice_join` (src/actions.py lines 333-422):
do nothing (client no longer connected), schedule the `play_next_sound` task
after the freshly drawn interval, disconnect now, or schedule the
`continue_playing` task whose sleep reads the local `interval` — carried as an
`Option` because on its path that local was never assigned. -/
inductive AfterEffect
  | stop
  | scheduleNext (interval : Nat)
  | disconnectNow
  | scheduleContinue (interval : Option Nat)
  deriving DecidableEq

/-- Embeds the branch structure of `after_playing` (src/actions.py lines
333-422).  `connected` is `voice_client.is_connected()`; `hitPlayAnother` is
the draw `random.random() < random_sound_chance`; `drawnInterval` is the
`random.randint(min_interval, max_interval)` value drawn only inside that
branch; `hitDisconnect` is the draw `random.random() < disconnect_chance`.
The local variable `interval` is modelled by an `Option Nat` cell that starts
unassigned and is written only in the play-another branch, exactly as in the
source; the miss-miss branch hands the still-unassigned cell to the
`continue_playing` task it schedules. -/
def after_playing (connected : Bool) (hitPlayAnother : Bool)
    (drawnInterval : Nat) (hitDisconnect : Bool) : AfterEffect :=
  if !connected then .stop
  else
    let interval : Option Nat := none
    if hitPlayAnother then .scheduleNext drawnInterval
    else if hitDisconnect then .disconnectNow
    else .scheduleContinue interval

/-- Outcome of running a scheduled `play_next_sound` / `continue_playing`
task body (src/actions.py lines 352-383 and 392-422). -/
inductive TaskResult
  | played (sound : String)
  | disconnected
  | skipped
  | nameError
  deriving DecidableEq

/-- Embeds the body of the `continue_playing` task (src/actions.py lines
392-422).  Its first statement is `await asyncio.sleep(interval)`; when the
enclosing `after_playing` call reached this branch the local `interval` was
never assigned, which Python reports as a NameError before anything else runs.
Otherwise the task re-checks the connection, lists the sound files and either
plays a random one or disconnects when none remain. -/
def continue_playing_run (interval : Option Nat) (connectedAfterWait : Bool)
    (soundFiles : List String) (choiceIdx : Nat) : TaskResult :=
  match interval with
  | none => .nameError
  | some _ =>
      if !connectedAfterWait then .skipped
      else
        match soundFiles.get? (choiceIdx % soundFiles.length) with
        | some s => .played s
        | none => .disconnected

/-- A guild member as `ActionHandler.find_member` / `is_protected_user`
consult it (src/actions.py lines 573-614): identifier, account name, display
name and the two elevated permission flags. -/
structure Member where
  id : Nat
  name : String
  displayName : String
  isAdministrator : Bool
  manageGuild : Bool
  deriving DecidableEq

/-- Python `str.strip('<@!>')` : drop leading and trailing characters drawn
from the set `< @ ! >`. -/
def stripMention (s : String) : String :=
  let mark : Char → Bool := fun c => c = '<' || c = '@' || c = '!' || c = '>'
  let cs := (s.toList.dropWhile mark).reverse.dropWhile mark
  String.mk cs.reverse

/-- Python `needle in hay` on strings: substring containment. -/
def strContains (needle hay : String) : Bool :=
  decide (needle.toList <:+: hay.toList)

/-- Python `str.isdigit` restricted to ASCII decimal digits: non-empty and
all digits. -/
def pyIsDigit (s : String) : Bool :=
  !s.isEmpty && s.toList.all Char.isDigit

/-- Python `str.lower` on the ASCII names these directives carry: lower-case
each character. -/
def pyLower (s : String) : String :=
  String.mk (s.toList.map Char.toLower)

/-- Python `int(...)` on the non-negative decimal durations the directives
carry: all-digit strings parse, anything else raises `ValueError` (`none`). -/
def parseNat (s : String) : Option Nat :=
  if pyIsDigit s then
    some (s.toList.foldl (fun n c => n * 10 + (c.toNat - 48)) 0)
  else none

/-- Embeds `ActionHandler.find_member` (src/actions.py lines 573-595): the
query is lower-cased and stripped of mention punctuation; an all-digit query
is first looked up as an identifier; then exact account-name or display-name
match; then substring match; first hit wins at each stage. -/
def find_member (members : List Member) (username : String) : Option Member :=
  let uname := stripMention (pyLower username)
  let byId :=
    if pyIsDigit uname then
      members.find? (fun m => m.id = ((parseNat uname).getD 0))
    else none
  match byId with
  | some m => some m
  | none =>
      match members.find?
          (fun m => pyLower m.name = uname || pyLower m.displayName = uname) with
      | some m => some m
      | none =>
          members.find?
            (fun m => strContains uname (pyLower m.name) ||
              strContains uname (pyLower m.displayName))

/-- Embeds `ActionHandler.is_protected_user` (src/actions.py lines 597-614):
protected when the identifier is in the configured protected or admin lists,
or the member holds administrator or manage-guild permissions. -/
def is_protected_user (protectedIds adminIds : List Nat) (m : Member) : Bool :=
  protectedIds.contains m.id || adminIds.contains m.id ||
    m.isAdministrator || m.manageGuild

/-- The user-facing events `ActionHandler.handle_timeout` can emit, in the
order it emits them (src/actions.py lines 129-168).  `timedOut` stands for
the platform `member.timeout(...)` handler invocation. -/
inductive TimeoutEvent
  | needArgs
  | badNumber
  | clampReport (minutes : Nat)
  | notFound (username : String)
  | protectedTarget
  | timedOut (displayName : String) (minutes : Nat)
  deriving DecidableEq

/-- Configuration and guild data consulted by `handle_timeout`:
`safety.max_timeout_minutes`, the protected and admin id lists, and the guild
member list. -/
structure TimeoutCtx where
  maxTimeout : Nat
  protectedIds : List Nat
  adminIds : List Nat
  members : List Member
  deriving DecidableEq

/-- Embeds `ActionHandler.handle_timeout` (src/actions.py lines 129-168) as
the ordered list of events it emits: fewer than two arguments aborts; a
non-numeric duration aborts; a duration above `safety.max_timeout_minutes` is
clamped and the clamping is reported at that point; only then is the target
resolved, checked for protection, and finally timed out.  `parseNat`
models Python `int(...)` on the decimal durations the directives carry. -/
def handle_timeout (ctx : TimeoutCtx) (args : List String) : List TimeoutEvent :=
  match args with
  | username :: minutesStr :: _ =>
      match parseNat minutesStr with
      | none => [.badNumber]
      | some minutes0 =>
          let clamp : Nat × List TimeoutEvent :=
            if ctx.maxTimeout < minutes0 then
              (ctx.maxTimeout, [.clampReport ctx.maxTimeout])
            else (minutes0, [])
          match find_member ctx.members username with
          | none => clamp.2 ++ [.notFound username]
          | some m =>
              if is_protected_user ctx.protectedIds ctx.adminIds m then
                clamp.2 ++ [.protectedTarget]
              else clamp.2 ++ [.timedOut m.displayName clamp.1]
  | _ => [.needArgs]

/-- The per-kind enable flags read by `is_action_enabled`
(src/actions.py lines 90-110): the values of `safety.enable_timeouts`,
`safety.enable_bans`, `safety.enable_nicknames` as resolved from the config
(defaulting to true when absent, already folded into the field values). -/
structure SafetyConfig where
  enableTimeouts : Bool
  enableBans : Bool
  enableNicknames : Bool
  deriving DecidableEq

/-- Embeds `ActionHandler.is_action_enabled` (src/actions.py lines 90-110):
`dm`, `vcjoin` and `image` are always enabled, the three destructive kinds
follow their config flags, and everything else is disabled. -/
def is_action_enabled (safety : SafetyConfig) (actionType : String) : Bool :=
  if actionType = "timeout" then safety.enableTimeouts
  else if actionType = "ban" then safety.enableBans
  else if actionType = "nickname" then safety.enableNicknames
  else if actionType = "dm" then true
  else if actionType = "vcjoin" then true
  else if actionType = "image" then true
  else false

/-- Embeds `ActionHandler.parse_action_args` (src/actions.py lines 28-47)
from the token list produced by the external tokenizer (`shlex.split`, or the
naive whitespace split it falls back to): an empty token list yields the empty
action type, otherwise the first token lower-cased selects the type and the
rest are the arguments. -/
def parse_action_args (parts : List String) : String × List String :=
  match parts with
  | [] => ("", [])
  | t :: rest => (pyLower t, rest)

/-- Outcome of one `ActionHandler.execute_action` call (src/actions.py lines
49-88): silently return on an empty directive, report a disabled feature,
report the rate limit, run the timeout handler (carrying its emitted events),
dispatch one of the other five handlers, or emit the unknown-kind diagnostic. -/
inductive ActionOutcome
  | noAction
  | disabledMsg
  | rateLimitedMsg
  | timeoutRan (events : List TimeoutEvent)
  | otherRan (kind : String)
  | unknownMsg (kind : String)
  deriving DecidableEq

/-- Embeds `ActionHandler.execute_action` (src/actions.py lines 49-88) on an
already tokenised directive: parse, bail out on an empty type, check
`is_action_enabled`, check `check_action_rate_limit` (which mutates
`self.action_history`), then dispatch on the action type, with the
unknown-kind diagnostic as the final else.  Returns the outcome and the
action history left behind. -/
def execute_action (safety : SafetyConfig) (ctx : TimeoutCtx)
    (maxActions now : Nat) (hist : List Nat) (parts : List String) :
    ActionOutcome × List Nat :=
  let p := parse_action_args parts
  let actionType := p.1
  let args := p.2
  if actionType = "" then (.noAction, hist)
  else if !(is_action_enabled safety actionType) then (.disabledMsg, hist)
  else
    let rl := check_action_rate_limit maxActions now hist
    if !rl.1 then (.rateLimitedMsg, rl.2)
    else if actionType = "timeout" then (.timeoutRan (handle_timeout ctx args), rl.2)
    else if actionType = "ban" then (.otherRan "ban", rl.2)
    else if actionType = "nickname" then (.otherRan "nickname", rl.2)
    else if actionType = "dm" then (.otherRan "dm", rl.2)
    else if actionType = "vcjoin" then (.otherRan "vcjoin", rl.2)
    else if actionType = "image" then (.otherRan "image", rl.2)
    else (.unknownMsg actionType, rl.2)

/-- One entry of `self.active_conversations` (src/bot.py line 58):
`last_activity` in seconds and the `active` flag. -/
structure ConvRecord where
  lastActivity : Nat
  active : Bool
  deriving DecidableEq

/-- The mutable per-bot state `on_message` touches: the conversation map
keyed by channel id and the `last_response` cooldown map keyed by user id. -/
structure BotState where
  activeConversations : Nat → Option ConvRecord
  lastResponse : Nat → Option Nat

/-- The configuration `on_message` and its helpers read:
`response.enable_wake_word_mode`, `response.conversation_timeout_minutes`,
and `discord.command_cooldown_seconds`. -/
structure BotConfig where
  wakeWordModeEnabled : Bool
  conversationTimeout : Nat
  cooldownSeconds : Nat
  deriving DecidableEq

/-- Replaces the conversation record of one channel, as the dictionary
assignments in src/bot.py do. -/
def setConv (st : BotState) (c : Nat) (r : ConvRecord) : BotState :=
  { st with activeConversations :=
      fun x => if x = c then some r else st.activeConversations x }

/-- Embeds `ScribbleBot.check_conversation_timeout` (src/bot.py lines
240-253): when wake-word mode is on, an active conversation whose
`last_activity` lies strictly more than `conversation_timeout` minutes in the
past has its `active` flag cleared; nothing else changes. -/
def check_conversation_timeout (cfg : BotConfig) (st : BotState)
    (c now : Nat) : BotState :=
  if !cfg.wakeWordModeEnabled then st
  else
    match st.activeConversations c with
    | none => st
    | some conv =>
        if conv.active && decide (cfg.conversationTimeout * 60 < now - conv.lastActivity) then
          setConv st c { conv with active := false }
        else st

/-- Embeds `ScribbleBot.activate_conversation` (src/bot.py lines 255-265):
when wake-word mode is on, install a fresh active record with
`last_activity = now`. -/
def activate_conversation (cfg : BotConfig) (st : BotState)
    (c now : Nat) : BotState :=
  if !cfg.wakeWordModeEnabled then st
  else setConv st c { lastActivity := now, active := true }

/-- Embeds `ScribbleBot.update_conversation_activity` (src/bot.py lines
267-276): refresh `last_activity` of an existing record, or create an active
one when the channel has none. -/
def update_conversation_activity (cfg : BotConfig) (st : BotState)
    (c now : Nat) : BotState :=
  if !cfg.wakeWordModeEnabled then st
  else
    match st.activeConversations c with
    | some conv => setConv st c { conv with lastActivity := now }
    | none => activate_conversation cfg st c now

/-- Embeds `ScribbleBot.is_conversation_active` (src/bot.py lines 278-283). -/
def is_conversation_active (cfg : BotConfig) (st : BotState) (c : Nat) : Bool :=
  cfg.wakeWordModeEnabled &&
    (match st.activeConversations c with
     | some conv => conv.active
     | none => false)

/-- One inbound message as `on_message` observes it.  `blacklisted` is the
result of `is_blacklisted_channel` (a lookup in the externally loaded
blacklist file), `matched` the result of `should_respond(message.content)`
(wake-word substring or external fuzzy name match), and `randHit` the result
of the random-trigger draw `random.randint(1, 10) <= random_chance / 10`. -/
structure MsgEvent where
  channelId : Nat
  authorId : Nat
  authorIsBot : Bool
  isDM : Bool
  blacklisted : Bool
  matched : Bool
  randHit : Bool
  time : Nat
  deriving DecidableEq

/-- How `on_message` disposes of one message. -/
inductive MsgOutcome
  | ignoredBot
  | blacklistedSkip
  | noTrigger
  | rateLimited
  | responded
  deriving DecidableEq

/-- Embeds `ScribbleBot.on_message` (src/bot.py lines 132-185): bot authors
are ignored; the conversation-timeout check runs for the message's channel;
DMs always respond; guild messages in blacklisted channels return; with
wake-word mode on, an active conversation responds and refreshes its
activity, otherwise a wake-word match activates the conversation; with the
mode off, only the match decides; a message not yet answering may still be
picked by the random trigger (the channel is known non-blacklisted on this
path, so `is_random_response_channel` holds); finally `check_rate_limit`
admits or drops the response and records the admission time. -/
def on_message (cfg : BotConfig) (st : BotState) (ev : MsgEvent) :
    BotState × MsgOutcome :=
  if ev.authorIsBot then (st, .ignoredBot)
  else
    let st1 := check_conversation_timeout cfg st ev.channelId ev.time
    if ev.isDM then
      let rl := check_rate_limit cfg.cooldownSeconds ev.time
        (st1.lastResponse ev.authorId)
      let st2 := { st1 with lastResponse :=
        fun u => if u = ev.authorId then rl.2 else st1.lastResponse u }
      (st2, if rl.1 then MsgOutcome.responded else MsgOutcome.rateLimited)
    else if ev.blacklisted then (st1, .blacklistedSkip)
    else
      let step : BotState × Bool :=
        if cfg.wakeWordModeEnabled then
          if is_conversation_active cfg st1 ev.channelId then
            (update_conversation_activity cfg st1 ev.channelId ev.time, true)
          else if ev.matched then
            (activate_conversation cfg st1 ev.channelId ev.time, true)
          else (st1, false)
        else (st1, ev.matched)
      let st2 := step.1
      let shouldRespond := step.2 || (!step.2 && ev.randHit)
      if !shouldRespond then (st2, .noTrigger)
      else
        let rl := check_rate_limit cfg.cooldownSeconds ev.time
          (st2.lastResponse ev.authorId)
        let st3 := { st2 with lastResponse :=
          fun u => if u = ev.authorId then rl.2 else st2.lastResponse u }
        (st3, if rl.1 then MsgOutcome.responded else MsgOutcome.rateLimited)

/-- Folds `on_message` over a list of inbound messages, keeping the state. -/
def run_messages (cfg : BotConfig) (st : BotState) (evs : List MsgEvent) :
    BotState :=
  evs.foldl (fun s ev => (on_message cfg s ev).1) st

/-- A channel holds no active conversation: its entry is absent or has the
`active` flag cleared. -/
def channelInactive (st : BotState) (c : Nat) : Prop :=
  ∀ r, st.activeConversations c = some r → r.active = false

/-- Looking up any channel in `setConv` either hits the replaced record or
falls through to the old map. -/
theorem setConv_lookup (st : BotState) (c : Nat) (r : ConvRecord) (x : Nat) :
    (setConv st c r).activeConversations x
      = if x = c then some r else st.activeConversations x := rfl

/-- `check_conversation_timeout` never raises an `active` flag: any record
that is active afterwards was exactly that record before. -/
theorem check_conversation_timeout_active_le (cfg : BotConfig) (st : BotState)
    (c2 now x : Nat) (r : ConvRecord)
    (hr : (check_conversation_timeout cfg st c2 now).activeConversations x = some r)
    (ha : r.active = true) : st.activeConversations x = some r := by
  unfold check_conversation_timeout at hr
  by_cases hw : cfg.wakeWordModeEnabled
  · simp only [hw, Bool.not_true, Bool.false_eq_true, if_false] at hr
    cases hcv : st.activeConversations c2 with
    | none => simp only [hcv] at hr; exact hr
    | some conv =>
        simp only [hcv] at hr
        by_cases hcond : (conv.active &&
            decide (cfg.conversationTimeout * 60 < now - conv.lastActivity)) = true
        · rw [if_pos hcond, setConv_lookup] at hr
          by_cases hx : x = c2
          · rw [if_pos hx] at hr
            cases hr
            simp at ha
          · rw [if_neg hx] at hr; exact hr
        · rw [if_neg hcond] at hr; exact hr
  · simp only [hw] at hr
    simpa using hr

/-- `check_conversation_timeout` preserves inactivity of every channel. -/
theorem check_conversation_timeout_inactive (cfg : BotConfig) (st : BotState)
    (c2 now c : Nat) (h : channelInactive st c) :
    channelInactive (check_conversation_timeout cfg st c2 now) c := by
  intro r hr
  by_cases ha : r.active = true
  · exact h r (check_conversation_timeout_active_le cfg st c2 now c r hr ha)
  · simpa using ha

/-- When the targeted channel's record exists and its timeout has not yet
expired, `check_conversation_timeout` returns the state unchanged. -/
theorem check_conversation_timeout_fresh (cfg : BotConfig) (st : BotState)
    (c2 now : Nat) (r : ConvRecord)
    (hr : st.activeConversations c2 = some r)
    (hfresh : ¬ (cfg.conversationTimeout * 60 < now - r.lastActivity)) :
    check_conversation_timeout cfg st c2 now = st := by
  unfold check_conversation_timeout
  by_cases hw : cfg.wakeWordModeEnabled
  · simp only [hw, Bool.not_true, Bool.false_eq_true, if_false]
    have hfalse : (r.active &&
        decide (cfg.conversationTimeout * 60 < now - r.lastActivity)) = false := by
      simp [hfresh]
    simp only [hr, hfalse, Bool.false_eq_true, if_false]
  · simp [hw]

/-- `check_conversation_timeout` never changes any record's `lastActivity`. -/
theorem check_conversation_timeout_lastActivity (cfg : BotConfig)
    (st : BotState) (c2 now x : Nat) :
    ((check_conversation_timeout cfg st c2 now).activeConversations x).map
        ConvRecord.lastActivity
      = (st.activeConversations x).map ConvRecord.lastActivity := by
  unfold check_conversation_timeout
  by_cases hw : cfg.wakeWordModeEnabled
  · simp only [hw, Bool.not_true, Bool.false_eq_true, if_false]
    cases hcv : st.activeConversations c2 with
    | none => simp only [hcv]
    | some conv =>
        simp only [hcv]
        by_cases hcond : (conv.active &&
            decide (cfg.conversationTimeout * 60 < now - conv.lastActivity)) = true
        · rw [if_pos hcond, setConv_lookup]
          by_cases hx : x = c2
          · rw [if_pos hx, hx, hcv]; rfl
          · rw [if_neg hx]
        · rw [if_neg hcond]
  · simp [hw]

/-- C1: voice-session teardown is idempotent.  For every guild whose session
is registered with a still-connected client, the first `leave_voice_channel`
issues exactly one disconnect and removes the registry entry; a second call
finds no entry, issues no disconnect, changes nothing and (as in the source,
where all disconnect exceptions are caught) raises no error. -/
theorem leave_voice_channel_idempotent (g : Nat) (reg : Nat → Option VCSession)
    (info : VCSession) (hreg : reg g = some info)
    (hconn : info.connected = true) :
    (leave_voice_channel g reg).2 = 1 ∧
    (leave_voice_channel g (leave_voice_channel g reg).1).2 = 0 ∧
    (leave_voice_channel g (leave_voice_channel g reg).1).1
      = (leave_voice_channel g reg).1 ∧
    (leave_voice_channel g reg).1 g = none := by
  have h1 : leave_voice_channel g reg
      = ((fun x => if x = g then none else reg x), 1) := by
    unfold leave_voice_channel
    simp only [hreg, hconn, if_true]
  have h2 : (fun x => if x = g then none else reg x) g = none := by simp
  have h3 : leave_voice_channel g (fun x => if x = g then none else reg x)
      = ((fun x => if x = g then none else reg x), 0) := by
    unfold leave_voice_channel
    simp
  rw [h1]
  exact ⟨rfl, by rw [h3], by rw [h3], h2⟩

/-- Witness for C1 at a concrete registry holding one connected session. -/
theorem leave_voice_channel_idempotent_witness :
    ((fun x => if x = 1 then some (VCSession.mk false true) else none) 1
        = some (VCSession.mk false true)) ∧
    ((leave_voice_channel 1
        (fun x => if x = 1 then some (VCSession.mk false true) else none)).2 = 1 ∧
     (leave_voice_channel 1 (leave_voice_channel 1
        (fun x => if x = 1 then some (VCSession.mk false true) else none)).1).2 = 0 ∧
     (leave_voice_channel 1 (leave_voice_channel 1
        (fun x => if x = 1 then some (VCSession.mk false true) else none)).1).1
       = (leave_voice_channel 1
        (fun x => if x = 1 then some (VCSession.mk false true) else none)).1 ∧
     (leave_voice_channel 1
        (fun x => if x = 1 then some (VCSession.mk false true) else none)).1 1 = none) :=
  ⟨rfl, leave_voice_channel_idempotent 1 _ (VCSession.mk false true) rfl rfl⟩

/-- C2: at a playback completion with the connection still up, when the
play-another draw misses and the disconnect-now draw also misses, the source
schedules the `continue_playing` task over the local `interval` that was
never assigned on this path, and that task fails with a NameError at its
first statement instead of waiting and playing another sound. -/
theorem after_playing_missmiss_nameError :
    after_playing true false 7 false = .scheduleContinue none ∧
    continue_playing_run none true ["sound.mp3"] 0 = .nameError ∧
    after_playing true true 7 false = .scheduleNext 7 ∧
    after_playing true false 7 true = .disconnectNow :=
  ⟨rfl, rfl, rfl, rfl⟩

/-- C3 counterexample: joining with an empty available-audio set at the
`handle_voice_join` path (src/actions.py lines 456-464) with a requested
duration of 5 minutes opens no playback and releases the connection only via
a timer scheduled 300 seconds out — not right away. -/
theorem handle_voice_join_empty_sounds_holds_connection :
    handle_voice_join_after_connect 5 [] 0
      = { playedSound := none, maxTimerDelay := 300,
          extraTimerDelay := some 300 } ∧
    (300 : Nat) ≠ 0 := by
  exact ⟨rfl, by decide⟩

/-- C3 amended: with no audio resources, `SoundManager.join_voice_channel`
refuses before opening any connection, and `ActionHandler.handle_voice_join`
never starts playback (never reaches Playing) but keeps the already-opened
connection until its duration timers fire `minutes * 60` seconds later,
rather than releasing it immediately. -/
theorem empty_sounds_join_behaviour (minutes choiceIdx : Nat)
    (enabled alreadyConnected connectSucceeds : Bool) :
    handle_voice_join_after_connect minutes [] choiceIdx
      = { playedSound := none, maxTimerDelay := minutes * 60,
          extraTimerDelay := some (minutes * 60) } ∧
    join_voice_channel enabled [] alreadyConnected connectSucceeds
      = { success := false, connectCalls := 0 } := by
  constructor
  · rfl
  · cases enabled <;> rfl

/-- Witness for C3's amended statement at concrete inputs. -/
theorem empty_sounds_join_behaviour_witness :
    handle_voice_join_after_connect 5 [] 3
      = { playedSound := none, maxTimerDelay := 300,
          extraTimerDelay := some 300 } ∧
    join_voice_channel true [] false true
      = { success := false, connectCalls := 0 } :=
  empty_sounds_join_behaviour 5 3 true false true

/-- C4: the one-hour action limiter purges with `(now - t).seconds < 3600`,
whose day component wraps: a first admission at time 0 fills a capacity of 1,
and a retry 86401 seconds later — strictly more than the one-hour window —
still finds the day-old entry unpurged and is rejected. -/
theorem check_action_rate_limit_day_wrap :
    check_action_rate_limit 1 0 [] = (true, [0]) ∧
    3600 < 86401 - 0 ∧
    check_action_rate_limit 1 86401 [0] = (false, [0]) ∧
    check_action_rate_limit 1 3700 [0] = (true, [3700]) := by
  refine ⟨?_, by decide, ?_, ?_⟩ <;> decide

/-- C5: the per-user cooldown compares `(now - last).seconds < cooldown`,
whose day component wraps: with a 3-second cooldown, a record from 2 seconds
ago rejects and a record from 5 seconds ago admits, but a record from 86401
seconds ago — vastly older than the cooldown — is also rejected, and the
rejection leaves the recorded state unchanged. -/
theorem check_rate_limit_day_wrap :
    check_rate_limit 3 2 (some 0) = (false, some 0) ∧
    check_rate_limit 3 5 (some 0) = (true, some 5) ∧
    3 < 86401 - 0 ∧
    check_rate_limit 3 86401 (some 0) = (false, some 0) := by
  refine ⟨?_, ?_, by decide, ?_⟩ <;> decide

/-- C6 counterexample: on the directive arguments `"ghost" 999` with a
configured maximum of 60 minutes and no guild member matching `ghost`, the
clamp is applied and reported even though target resolution then fails — the
clamp does not wait for the target to be resolved and found unprotected. -/
theorem handle_timeout_clamp_before_resolution :
    handle_timeout ⟨60, [], [], []⟩ ["ghost", "999"]
      = [.clampReport 60, .notFound "ghost"] ∧
    TimeoutEvent.clampReport 60 ∈ handle_timeout ⟨60, [], [], []⟩ ["ghost", "999"] ∧
    find_member [] "ghost" = none := by
  refine ⟨?_, ?_, ?_⟩
  · rfl
  · rw [show handle_timeout ⟨60, [], [], []⟩ ["ghost", "999"]
        = [.clampReport 60, .notFound "ghost"] from rfl]
    exact List.mem_cons_self _ _
  · rfl

/-- C6 amended: for a Timeout directive the checks run in the order
feature-enabled, global rate-limit admission, argument-count and numeric
parse, then the duration clamp with its report, and only afterwards target
resolution followed by the protection check — each stage short-circuiting on
failure.  In particular the clamp report precedes target resolution and is
emitted whether or not resolution succeeds. -/
theorem execute_action_timeout_pipeline (safety : SafetyConfig)
    (ctx : TimeoutCtx) (maxActions now : Nat) (hist : List Nat)
    (u ms : String) (rest : List String) :
    (safety.enableTimeouts = false →
      execute_action safety ctx maxActions now hist ("timeout" :: u :: ms :: rest)
        = (.disabledMsg, hist)) ∧
    (safety.enableTimeouts = true →
      (check_action_rate_limit maxActions now hist).1 = false →
      execute_action safety ctx maxActions now hist ("timeout" :: u :: ms :: rest)
        = (.rateLimitedMsg, (check_action_rate_limit maxActions now hist).2)) ∧
    (safety.enableTimeouts = true →
      (check_action_rate_limit maxActions now hist).1 = true →
      execute_action safety ctx maxActions now hist ("timeout" :: u :: ms :: rest)
        = (.timeoutRan (handle_timeout ctx (u :: ms :: rest)),
           (check_action_rate_limit maxActions now hist).2)) ∧
    (∀ n, parseNat ms = some n → ctx.maxTimeout < n →
      handle_timeout ctx (u :: ms :: rest)
        = .clampReport ctx.maxTimeout ::
            (match find_member ctx.members u with
             | none => [.notFound u]
             | some m =>
                 if is_protected_user ctx.protectedIds ctx.adminIds m then
                   [.protectedTarget]
                 else [.timedOut m.displayName ctx.maxTimeout])) := by
  have htok : pyLower "timeout" = "timeout" := by decide
  refine ⟨?_, ?_, ?_, ?_⟩
  · intro hoff
    simp [execute_action, parse_action_args, htok, is_action_enabled, hoff]
  · intro hon hrl
    simp [execute_action, parse_action_args, htok, is_action_enabled, hon, hrl]
  · intro hon hrl
    simp [execute_action, parse_action_args, htok, is_action_enabled, hon, hrl]
  · intro n hn hlt
    unfold handle_timeout
    simp only [hn]
    rw [if_pos hlt]
    cases hfm : find_member ctx.members u with
    | none => simp [hfm]
    | some m =>
        by_cases hp : is_protected_user ctx.protectedIds ctx.adminIds m = true
        · simp [hfm, hp]
        · simp [hfm, hp]

/-- Witness for C6's amended statement: with timeouts enabled, an empty
history, capacity 10 and the directive `timeout ghost 999` against an empty
member list, dispatch runs the timeout handler and the handler emits the
clamp report first, followed by the resolution failure. -/
theorem execute_action_timeout_pipeline_witness :
    execute_action ⟨true, true, true⟩ ⟨60, [], [], []⟩ 10 0 []
        ("timeout" :: "ghost" :: "999" :: [])
      = (.timeoutRan (handle_timeout ⟨60, [], [], []⟩ ["ghost", "999"]), [0]) ∧
    handle_timeout ⟨60, [], [], []⟩ ["ghost", "999"]
      = .clampReport 60 :: [.notFound "ghost"] := by
  have h := execute_action_timeout_pipeline ⟨true, true, true⟩ ⟨60, [], [], []⟩
    10 0 [] "ghost" "999" []
  refine ⟨?_, ?_⟩
  · have := h.2.2.1 rfl (by decide)
    simpa using this
  · have := h.2.2.2 999 (by decide) (by decide)
    simpa using this

/-- C9: any directive whose first token lower-cases to something other than
the six known kinds fails the feature-enabled check, so dispatch reports the
disabled outcome, leaves the action history untouched and invokes no handler;
and for no input whatsoever does `execute_action` reach the unknown-kind
diagnostic branch. -/
theorem unknown_action_unreachable (safety : SafetyConfig) (ctx : TimeoutCtx)
    (maxActions now : Nat) (hist : List Nat) :
    (∀ t rest, pyLower t ≠ "" →
      pyLower t ≠ "timeout" → pyLower t ≠ "ban" → pyLower t ≠ "nickname" →
      pyLower t ≠ "dm" → pyLower t ≠ "vcjoin" → pyLower t ≠ "image" →
      execute_action safety ctx maxActions now hist (t :: rest)
        = (.disabledMsg, hist)) ∧
    (∀ parts k, (execute_action safety ctx maxActions now hist parts).1
        ≠ .unknownMsg k) := by
  constructor
  · intro t rest h0 h1 h2 h3 h4 h5 h6
    simp [execute_action, parse_action_args, is_action_enabled,
      h0, h1, h2, h3, h4, h5, h6]
  · intro parts k
    cases parts with
    | nil =>
        simp [execute_action, parse_action_args]
    | cons t rest =>
        simp only [execute_action, parse_action_args]
        by_cases h0 : pyLower t = ""
        · simp [h0]
        · simp only [h0, if_false]
          by_cases hE : is_action_enabled safety (pyLower t) = true
          · simp only [hE, Bool.not_true, Bool.false_eq_true, if_false]
            by_cases hR : (check_action_rate_limit maxActions now hist).1 = true
            · simp only [hR, Bool.not_true, Bool.false_eq_true, if_false]
              by_cases h1 : pyLower t = "timeout"
              · simp [h1]
              · by_cases h2 : pyLower t = "ban"
                · simp [h1, h2]
                · by_cases h3 : pyLower t = "nickname"
                  · simp [h1, h2, h3]
                  · by_cases h4 : pyLower t = "dm"
                    · simp [h1, h2, h3, h4]
                    · by_cases h5 : pyLower t = "vcjoin"
                      · simp [h1, h2, h3, h4, h5]
                      · by_cases h6 : pyLower t = "image"
                        · simp [h1, h2, h3, h4, h5, h6]
                        · exfalso
                          apply Bool.false_ne_true
                          rw [← hE]
                          simp [is_action_enabled, h1, h2, h3, h4, h5, h6]
            · have hR' : (check_action_rate_limit maxActions now hist).1 = false :=
                Bool.eq_false_iff.mpr hR
              simp [hR']
          · have hE' : is_action_enabled safety (pyLower t) = false :=
              Bool.eq_false_iff.mpr hE
            simp [hE']

/-- Witness for C9: the unknown kind `Explode` is reported as disabled with
the history untouched, and its outcome is not the unknown-kind diagnostic. -/
theorem unknown_action_unreachable_witness :
    execute_action ⟨true, true, true⟩ ⟨60, [], [], []⟩ 10 0 [] ["Explode", "now"]
      = (.disabledMsg, []) ∧
    (execute_action ⟨true, true, true⟩ ⟨60, [], [], []⟩ 10 0 []
        ["Explode", "now"]).1 ≠ .unknownMsg "explode" := by
  have h := unknown_action_unreachable ⟨true, true, true⟩ ⟨60, [], [], []⟩ 10 0 []
  exact ⟨h.1 "Explode" ["now"] (by decide) (by decide) (by decide) (by decide)
      (by decide) (by decide) (by decide),
    h.2 ["Explode", "now"] "explode"⟩

/-- `update_conversation_activity` touches no channel other than its own. -/
theorem update_conversation_activity_other (cfg : BotConfig) (st : BotState)
    (c2 now x : Nat) (hx : x ≠ c2) :
    (update_conversation_activity cfg st c2 now).activeConversations x
      = st.activeConversations x := by
  unfold update_conversation_activity activate_conversation
  by_cases hw : cfg.wakeWordModeEnabled
  · simp only [hw, Bool.not_true, Bool.false_eq_true, if_false]
    cases hcv : st.activeConversations c2 with
    | none => simp [hcv, setConv_lookup, hx]
    | some conv => simp [hcv, setConv_lookup, hx]
  · simp [hw]

/-- An affirmative `is_conversation_active` exhibits an active record. -/
theorem is_conversation_active_some (cfg : BotConfig) (st : BotState) (c : Nat)
    (h : is_conversation_active cfg st c = true) :
    ∃ r, st.activeConversations c = some r ∧ r.active = true := by
  unfold is_conversation_active at h
  cases hcv : st.activeConversations c with
  | none => rw [hcv] at h; simp at h
  | some r =>
      rw [hcv] at h
      simp only [Bool.and_eq_true] at h
      exact ⟨r, rfl, h.2⟩

/-- `activate_conversation` touches no channel other than its own. -/
theorem activate_conversation_other (cfg : BotConfig) (st : BotState)
    (c2 now x : Nat) (hx : x ≠ c2) :
    (activate_conversation cfg st c2 now).activeConversations x
      = st.activeConversations x := by
  unfold activate_conversation
  by_cases hw : cfg.wakeWordModeEnabled
  · simp [hw, setConv_lookup, hx]
  · simp [hw]

/-- One `on_message` step on a message that either lands in another channel
or did not match keeps an inactive channel `c` inactive: the random trigger
and the cooldown only touch `last_response`, the timeout check only clears
`active` flags, and an activation or refresh in another channel leaves `c`
alone. -/
theorem on_message_step_inactive (cfg : BotConfig) (st : BotState)
    (ev : MsgEvent) (c : Nat) (h : channelInactive st c)
    (hm : ev.channelId = c → ev.matched = false) :
    channelInactive (on_message cfg st ev).1 c := by
  unfold on_message
  set st1 := check_conversation_timeout cfg st ev.channelId ev.time with hst1
  have hcct : channelInactive st1 c :=
    check_conversation_timeout_inactive cfg st ev.channelId ev.time c h
  cases hb : ev.authorIsBot with
  | true => simpa [hb] using h
  | false =>
    cases hdm : ev.isDM with
    | true =>
        intro r hr
        apply hcct r
        simpa [hb, hdm] using hr
    | false =>
      cases hbl : ev.blacklisted with
      | true =>
          intro r hr
          apply hcct r
          simpa [hb, hdm, hbl] using hr
      | false =>
        cases hw : cfg.wakeWordModeEnabled with
        | false =>
            intro r hr
            apply hcct r
            by_cases hmv : ev.matched = true
            · simp only [hb, hdm, hbl, hw, hmv, Bool.false_eq_true,
                if_false] at hr
              simpa using hr
            · simp only [hb, hdm, hbl, hw, Bool.eq_false_iff.mpr hmv,
                Bool.false_eq_true, if_false] at hr
              by_cases hrand : ev.randHit = true
              · simpa [hrand] using hr
              · simp only [Bool.eq_false_iff.mpr hrand] at hr
                simpa using hr
        | true =>
          by_cases hact : is_conversation_active cfg st1 ev.channelId = true
          · intro r hr
            by_cases hx : c = ev.channelId
            · exfalso
              obtain ⟨r0, hr0, ha0⟩ :=
                is_conversation_active_some cfg st1 ev.channelId hact
              have hzero : r0.active = false := hcct r0 (by rw [hx, hr0])
              rw [hzero] at ha0
              exact Bool.false_ne_true ha0
            · apply hcct r
              rw [← update_conversation_activity_other cfg st1 ev.channelId
                ev.time c hx]
              simpa [hb, hdm, hbl, hw, hact] using hr
          · intro r hr
            have hact' : is_conversation_active cfg st1 ev.channelId = false :=
              Bool.eq_false_iff.mpr hact
            by_cases hmv : ev.matched = true
            · have hcne : c ≠ ev.channelId := by
                intro he
                rw [hm he.symm] at hmv
                exact Bool.false_ne_true hmv
              apply hcct r
              rw [← activate_conversation_other cfg st1 ev.channelId
                ev.time c hcne]
              simpa [hb, hdm, hbl, hw, hact', hmv] using hr
            · apply hcct r
              simp only [hb, hdm, hbl, hw, hact', Bool.eq_false_iff.mpr hmv,
                Bool.false_eq_true, if_false] at hr
              by_cases hrand : ev.randHit = true
              · simpa [hrand] using hr
              · simp only [Bool.eq_false_iff.mpr hrand] at hr
                simpa using hr

/-- C8: for every channel, running any sequence of messages in which no
message of that channel matched the wake word or the fuzzy name threshold
keeps that channel's conversation out of the `Active` state — messages of
other channels (matching or not), random-trigger responses and rate-limit
outcomes never activate this channel's conversation. -/
theorem no_match_stays_inactive (cfg : BotConfig) (st : BotState)
    (evs : List MsgEvent) (c : Nat) (hstart : channelInactive st c)
    (hnomatch : ∀ ev ∈ evs, ev.channelId = c → ev.matched = false) :
    channelInactive (run_messages cfg st evs) c := by
  induction evs generalizing st with
  | nil => exact hstart
  | cons e es ih =>
      exact ih (on_message cfg st e).1
        (on_message_step_inactive cfg st e c hstart
          (hnomatch e (List.mem_cons_self e es)))
        (fun ev hev => hnomatch ev (List.mem_cons_of_mem e hev))

/-- Witness for C8: from the empty state, a wake-word match in channel 2, a
wake-word-free message in channel 1 that wins the random trigger, and a later
plain message in channel 1 leave channel 1 inactive. -/
theorem no_match_stays_inactive_witness :
    channelInactive
      (run_messages ⟨true, 10, 3⟩ ⟨fun _ => none, fun _ => none⟩
        [⟨2, 5, false, false, false, true, false, 50⟩,
         ⟨1, 5, false, false, false, false, true, 100⟩,
         ⟨1, 5, false, false, false, false, false, 200⟩]) 1 :=
  no_match_stays_inactive ⟨true, 10, 3⟩ ⟨fun _ => none, fun _ => none⟩
    [⟨2, 5, false, false, false, true, false, 50⟩,
     ⟨1, 5, false, false, false, false, true, 100⟩,
     ⟨1, 5, false, false, false, false, false, 200⟩] 1
    (fun r hr => Option.noConfusion hr)
    (by decide)

/-- C7 counterexample: a message arriving in blacklisted channel 1 while its
conversation is Active but expired (activity at 0, timeout 10 minutes,
arrival at 601 seconds) flips the conversation to inactive — the state is not
left completely unchanged, because the timeout check runs before the
blacklist check. -/
theorem blacklisted_message_deactivates_expired :
    ((⟨fun c => if c = 1 then some ⟨0, true⟩ else none, fun _ => none⟩ :
        BotState).activeConversations 1 = some ⟨0, true⟩) ∧
    ((on_message ⟨true, 10, 3⟩
        ⟨fun c => if c = 1 then some ⟨0, true⟩ else none, fun _ => none⟩
        ⟨1, 5, false, false, true, false, false, 601⟩).1.activeConversations 1
      = some ⟨0, false⟩) ∧
    ((on_message ⟨true, 10, 3⟩
        ⟨fun c => if c = 1 then some ⟨0, true⟩ else none, fun _ => none⟩
        ⟨1, 5, false, false, true, false, false, 601⟩).2
      = .blacklistedSkip) := by
  refine ⟨rfl, by decide, by decide⟩

/-- C7 amended: a message in a blacklisted channel triggers no activation, no
activity refresh and no response — the resulting state is exactly the one the
conversation-timeout check produces, which runs before the blacklist check:
it never changes any `lastActivity`, and when the channel's record has not
expired the whole state is returned untouched; an Active-but-expired
conversation, however, is deactivated. -/
theorem blacklisted_message_state (cfg : BotConfig) (st : BotState)
    (ev : MsgEvent) (hbot : ev.authorIsBot = false) (hdm : ev.isDM = false)
    (hbl : ev.blacklisted = true) :
    on_message cfg st ev
      = (check_conversation_timeout cfg st ev.channelId ev.time,
         .blacklistedSkip) ∧
    (∀ x, ((check_conversation_timeout cfg st ev.channelId
          ev.time).activeConversations x).map ConvRecord.lastActivity
        = (st.activeConversations x).map ConvRecord.lastActivity) ∧
    (∀ r, st.activeConversations ev.channelId = some r →
      ¬ (cfg.conversationTimeout * 60 < ev.time - r.lastActivity) →
      on_message cfg st ev = (st, .blacklistedSkip)) := by
  refine ⟨?_, ?_, ?_⟩
  · simp [on_message, hbot, hdm, hbl]
  · intro x
    exact check_conversation_timeout_lastActivity cfg st ev.channelId ev.time x
  · intro r hr hfresh
    have h1 : on_message cfg st ev
        = (check_conversation_timeout cfg st ev.channelId ev.time,
           .blacklistedSkip) := by
      simp [on_message, hbot, hdm, hbl]
    rw [h1, check_conversation_timeout_fresh cfg st ev.channelId ev.time r
      hr hfresh]

/-- Witness for C7's amended statement: a blacklisted-channel message over a
fresh Active conversation returns the state untouched. -/
theorem blacklisted_message_state_witness :
    on_message ⟨true, 10, 3⟩
        (⟨fun c => if c = 1 then some ⟨50, true⟩ else none, fun _ => none⟩ :
          BotState)
        ⟨1, 5, false, false, true, false, false, 60⟩
      = ((⟨fun c => if c = 1 then some ⟨50, true⟩ else none, fun _ => none⟩ :
          BotState), .blacklistedSkip) :=
  (blacklisted_message_state ⟨true, 10, 3⟩
      (⟨fun c => if c = 1 then some ⟨50, true⟩ else none, fun _ => none⟩ :
        BotState)
      ⟨1, 5, false, false, true, false, false, 60⟩ rfl rfl rfl).2.2
    ⟨50, true⟩ rfl (by decide)

/-- C10: a message in a channel whose conversation is Active (and unexpired)
first refreshes `lastActivity` to the arrival time, and only then does the
per-user cooldown admission run; so even when the cooldown rejects the
response, the conversation timer is re-armed and the channel stays Active. -/
theorem active_message_refreshes_before_cooldown (cfg : BotConfig)
    (st : BotState) (ev : MsgEvent) (la : Nat)
    (hbot : ev.authorIsBot = false) (hdm : ev.isDM = false)
    (hbl : ev.blacklisted = false) (hw : cfg.wakeWordModeEnabled = true)
    (hconv : st.activeConversations ev.channelId = some ⟨la, true⟩)
    (hfresh : ¬ (cfg.conversationTimeout * 60 < ev.time - la)) :
    ((on_message cfg st ev).1).activeConversations ev.channelId
        = some ⟨ev.time, true⟩ ∧
    ((on_message cfg st ev).2 = .responded ∨
     (on_message cfg st ev).2 = .rateLimited) := by
  have hst1 : check_conversation_timeout cfg st ev.channelId ev.time = st :=
    check_conversation_timeout_fresh cfg st ev.channelId ev.time ⟨la, true⟩
      hconv hfresh
  have hact : is_conversation_active cfg st ev.channelId = true := by
    unfold is_conversation_active
    rw [hconv, hw]
    rfl
  have hupd : (update_conversation_activity cfg st ev.channelId
      ev.time).activeConversations ev.channelId = some ⟨ev.time, true⟩ := by
    unfold update_conversation_activity
    simp [hw, hconv, setConv_lookup]
  constructor
  · show ((on_message cfg st ev).1).activeConversations ev.channelId = _
    unfold on_message
    rw [hst1]
    simp only [hbot, hdm, hbl, hw, hact, Bool.false_eq_true, if_false,
      if_true]
    simpa using hupd
  · unfold on_message
    rw [hst1]
    simp only [hbot, hdm, hbl, hw, hact, Bool.false_eq_true, if_false,
      if_true]
    cases hrl : (check_rate_limit cfg.cooldownSeconds ev.time
        ((update_conversation_activity cfg st ev.channelId
          ev.time).lastResponse ev.authorId)).1 with
    | true => simp [hrl]
    | false => simp [hrl]

/-- Witness for C10: with a 3-second cooldown and a response recorded one
second earlier, the cooldown rejects the message, yet the conversation record
of channel 1 is refreshed to the arrival time and stays active. -/
theorem active_message_refreshes_before_cooldown_witness :
    (((on_message ⟨true, 10, 3⟩
        (⟨fun c => if c = 1 then some ⟨0, true⟩ else none,
          fun u => if u = 5 then some 99 else none⟩ : BotState)
        ⟨1, 5, false, false, false, false, false, 100⟩).1).activeConversations 1
      = some ⟨100, true⟩) ∧
    ((on_message ⟨true, 10, 3⟩
        (⟨fun c => if c = 1 then some ⟨0, true⟩ else none,
          fun u => if u = 5 then some 99 else none⟩ : BotState)
        ⟨1, 5, false, false, false, false, false, 100⟩).2 = .rateLimited) :=
  ⟨(active_message_refreshes_before_cooldown ⟨true, 10, 3⟩
      (⟨fun c => if c = 1 then some ⟨0, true⟩ else none,
        fun u => if u = 5 then some 99 else none⟩ : BotState)
      ⟨1, 5, false, false, false, false, false, 100⟩ 0
      rfl rfl rfl rfl rfl (by decide)).1,
   by decide⟩

end Scribble
